import Mathlib

/-!
Shallow embedding of the `winlock` repository (src/lib.rs and src/main.rs):
a Windows hotkey-triggered session-lock controller.

OS primitives (`VkKeyScanW`, `RegisterHotKey`, `GetMessageW`, `LockWorkStation`,
`RegSetKeyValueW`) are modelled as parameters/oracles; each library function is
translated from the Rust source, with machine integers as `Int`/`Nat` and
two's-complement bit operations made explicit.
-/

/-! ## Windows message constants (winuser.h values used by lib.rs) -/

def WM_HOTKEY : Nat := 0x0312

def WM_QUIT : Nat := 0x0012

/-! ## Modifiers (lib.rs, `bitflags` struct `Modifiers: u32`) -/

namespace Modifiers

def Alt : Nat := 0x0001

def Control : Nat := 0x0002

def NoRepeat : Nat := 0x4000

def Shift : Nat := 0x0004

def Win : Nat := 0x0008

end Modifiers

/-! ## Key (lib.rs `pub struct Key(pub u32)`) -/

structure Key where
  code : Nat
deriving DecidableEq, Repr

/-- Embeds `Key::from_current_layout_char` (lib.rs lines 64-68).

The OS primitive `VkKeyScanW(c as u16)` returns an `i16`; it is modelled by the
oracle `scanOf : Char → Int` giving that signed 16-bit value (so `-1` is the
documented failure sentinel, in which case the raw bits are `0xFFFF`).

Source:
  `let scan = unsafe { VkKeyScanW(c as u16) };`
  `let vkc = scan & 0x00FF;`
  `(vkc != -1).then_some(Key(vkc as u32))`

For an `i16` value `scan`, the two's-complement `scan & 0x00FF` equals the
Euclidean remainder `scan.emod 256` (the low 8 bits, as a non-negative value),
which is how it is written here. -/
def Key.from_current_layout_char (scanOf : Char → Int) (c : Char) : Option Key :=
  let scan : Int := scanOf c
  let vkc : Int := scan.emod 256
  if vkc ≠ -1 then some ⟨vkc.toNat⟩ else none

/-! ## HotkeyEvent and await_event (lib.rs lines 103-129) -/

inductive HotkeyEvent where
  | Hotkey
  | Other
  | Quit
deriving DecidableEq, Repr

/-- The `io::Error` of the Rust source, carrying an OS error detail we do not
inspect; modelled as an opaque-payload-free marker. -/
structure IoErr where
deriving DecidableEq, Repr

/-- Embeds `await_event` (lib.rs lines 115-129).

The OS primitive `GetMessageW` is modelled by its observable outcome: its
`BOOL`(`i32`) return value `message_result` and the `message.message` id field
of the message it filled in.

Source:
  `match message_result.0 { 0 => return Ok(Quit), -1 => return Err(..), _ => message }`
  then `match message.message { WM_HOTKEY => Ok(Hotkey), WM_QUIT => Ok(Quit), _ => Ok(Quit) }`

Note the fallthrough arm of the second match in the source is `Quit`, not
`Other`. -/
def await_event (message_result : Int) (message_id : Nat) : Except IoErr HotkeyEvent :=
  if message_result = 0 then .ok .Quit
  else if message_result = -1 then .error ⟨⟩
  else if message_id = WM_HOTKEY then .ok .Hotkey
  else if message_id = WM_QUIT then .ok .Quit
  else .ok .Quit

/-! ## set_lock_enabled (lib.rs lines 153-170) -/

/-- The registry-value encoding used by `set_lock_enabled`:
`let data: u32 = if enabled { 0 } else { 1 };`. -/
def writeValue (enabled : Bool) : Nat := if enabled then 0 else 1

/-- One call to the OS persisted-policy-write primitive `RegSetKeyValueW`,
recording every argument the source passes to it. -/
structure RegWrite where
  hive : Nat
  subkey : String
  valueName : String
  valueType : Nat
  data : Nat
  dataSize : Nat
deriving DecidableEq, Repr

def HKEY_CURRENT_USER : Nat := 0x80000001

def REG_DWORD : Nat := 4

/-- Embeds `set_lock_enabled` (lib.rs lines 153-170) as the list of registry
writes the call issues: a single `RegSetKeyValueW` call under
`HKEY_CURRENT_USER`, value name `DisableLockWorkstation`, type `REG_DWORD`,
with data `0` when `enabled` and `1` otherwise, 4 bytes. It takes no prior
state and issues no read. -/
def set_lock_enabled (enabled : Bool) : List RegWrite :=
  [{ hive := HKEY_CURRENT_USER
     subkey := "Software\\Microsoft\\Windows\\CurrentVersion\\Policies\\System"
     valueName := "DisableLockWorkstation"
     valueType := REG_DWORD
     data := writeValue enabled
     dataSize := 4 }]

/-! ## Options and virtual_key (main.rs lines 7-58) -/

structure Options where
  disable_windows : Bool
  restore_windows : Bool
  virtual_code : Option Nat
  key : Option Char
  ctrl : Bool
  shift : Bool
  windows : Bool
  alt : Bool
deriving DecidableEq, Repr

inductive OptionsKeyError where
  | MappingFail
  | Conflict
deriving DecidableEq, Repr

/-- Embeds `Options::virtual_key` (main.rs lines 50-58), parameterised by the
`VkKeyScanW` oracle used by `Key::from_current_layout_char`. -/
def Options.virtual_key (o : Options) (scanOf : Char → Int) :
    Except OptionsKeyError (Option Key) :=
  match o.virtual_code, o.key with
  | none, none => .ok none
  | none, some button =>
    match Key.from_current_layout_char scanOf button with
    | some k => .ok (some k)
    | none => .error .MappingFail
  | some code, none => .ok (some ⟨code⟩)
  | some _, some _ => .error .Conflict

/-- Embeds `impl From<Options> for Modifiers` (main.rs lines 61-78):
start from `NoRepeat` and `|=` in each configured modifier bit. -/
def Modifiers.fromOptions (o : Options) : Nat :=
  let result := Modifiers.NoRepeat
  let result := if o.ctrl then result ||| Modifiers.Control else result
  let result := if o.shift then result ||| Modifiers.Shift else result
  let result := if o.windows then result ||| Modifiers.Win else result
  let result := if o.alt then result ||| Modifiers.Alt else result
  result

/-! ## The controller loop (main.rs lines 100-172)

The side effects of `main` are modelled as a trace of `Act`s:
policy-flag writes (`enable_lock`/`disable_lock`, i.e. `set_lock_enabled`),
lock-action invocations (`lock_workstation`), and sleeps. -/

inductive Act where
  | policyWrite (enabled : Bool)
  | lock
  | sleep (ms : Nat)
deriving DecidableEq, Repr

/-- `Options::cleanup` (main.rs lines 93-97): `if restore_windows { enable_lock() }`. -/
def Options.cleanup (o : Options) : List Act :=
  if o.restore_windows then [.policyWrite true] else []

/-- Main.rs lines 115-117: `if options.disable_windows { disable_lock(); }`,
run before the key specification is even examined. -/
def preActions (o : Options) : List Act :=
  if o.disable_windows then [.policyWrite false] else []

/-- The body run on a `Hotkey` event (main.rs lines 151-159): `enable_lock()`,
`lock_workstation()`, then only if `disable_windows` a 500 ms sleep followed by
`disable_lock()`. -/
def hotkeyActions (o : Options) : List Act :=
  [.policyWrite true, .lock] ++
    (if o.disable_windows then [.sleep 500, .policyWrite false] else [])

/-- Embeds the event loop of `main` (main.rs lines 138-160), driven by the
list of successive `await_event` outcomes. Returns the trace of actions the
loop performs and whether it terminated by consuming a `Quit` event (`break`);
if the list is exhausted first the loop is still blocked in `await_event`.

Source arms: `Err(e) => { log; continue }`, `Hotkey => {}` then the body,
`Other => continue`, `Quit => break`. -/
def runLoop (o : Options) : List (Except IoErr HotkeyEvent) → List Act × Bool
  | [] => ([], false)
  | .error _ :: rest => runLoop o rest
  | .ok .Other :: rest => runLoop o rest
  | .ok .Quit :: _ => ([], true)
  | .ok .Hotkey :: rest =>
    let tail := runLoop o rest
    (hotkeyActions o ++ tail.1, tail.2)

/-- Embeds `main` (main.rs lines 100-172) on the non-interrupted paths,
parameterised by the `VkKeyScanW` oracle, the outcome of `Hotkey::register`
(`regOk`), and the stream of `await_event` outcomes. Produces
`some (trace, exit code)` when the process terminates, `none` when it is still
blocked reading events.

Paths, as in the source:
- key resolution error: log, `exit(1)` (the line-169 restore is NOT reached);
- no key configured: skip the loop, then line 169's
  `if restore_windows { enable_lock() }`, exit 0;
- registration failure: `options.cleanup()`, `exit(1)`;
- loop until `Quit`, then line 169's restore, exit 0. -/
def mainRun (o : Options) (scanOf : Char → Int) (regOk : Bool)
    (events : List (Except IoErr HotkeyEvent)) : Option (List Act × Nat) :=
  let pre := preActions o
  match o.virtual_key scanOf with
  | .ok (some _) =>
    if regOk then
      let r := runLoop o events
      if r.2 then
        some (pre ++ r.1 ++ (if o.restore_windows then [.policyWrite true] else []), 0)
      else none
    else some (pre ++ o.cleanup, 1)
  | .ok none =>
    some (pre ++ (if o.restore_windows then [.policyWrite true] else []), 0)
  | .error _ => some (pre, 1)

/-- Embeds the path where the ctrl-c handler fires (main.rs lines 131-137)
after the loop has processed `events`: the handler runs `options.cleanup()`
and `exit(0)`. The handler is only installed when registration succeeded and
`restore_windows` is set, so those are the hypotheses under which this model
applies. -/
def mainRunInterrupted (o : Options) (events : List (Except IoErr HotkeyEvent)) :
    List Act × Nat :=
  (preActions o ++ (runLoop o events).1 ++ o.cleanup, 0)

/-- The persisted `DisableLockWorkstation` DWORD after a trace of actions,
starting from `init`. Each `policyWrite enabled` stores `writeValue enabled`
(the encoding of `set_lock_enabled`); other actions leave it unchanged. -/
def finalFlag (init : Nat) : List Act → Nat
  | [] => init
  | .policyWrite e :: rest => finalFlag (writeValue e) rest
  | .lock :: rest => finalFlag init rest
  | .sleep _ :: rest => finalFlag init rest

/-! ## Helper lemmas -/

instance {ε α : Type} [DecidableEq ε] [DecidableEq α] : DecidableEq (Except ε α) := fun x y =>
  match x, y with
  | .ok a, .ok b =>
    if h : a = b then .isTrue (by rw [h]) else .isFalse (fun hh => h (by injection hh))
  | .error a, .error b =>
    if h : a = b then .isTrue (by rw [h]) else .isFalse (fun hh => h (by injection hh))
  | .ok _, .error _ => .isFalse (fun hh => nomatch hh)
  | .error _, .ok _ => .isFalse (fun hh => nomatch hh)

/-- A trace ending in `enable_lock` (`policyWrite true`) leaves the persisted
flag at `0` (lock enabled), whatever came before. -/
theorem finalFlag_append_enable (xs : List Act) (init : Nat) :
    finalFlag init (xs ++ [Act.policyWrite true]) = 0 := by
  induction xs generalizing init with
  | nil => rfl
  | cons x rest ih => cases x <;> simpa [finalFlag] using ih _

/-- An event stream ending in `Quit` always drives the loop to termination. -/
theorem runLoop_append_quit (o : Options) (es : List (Except IoErr HotkeyEvent)) :
    (runLoop o (es ++ [Except.ok HotkeyEvent.Quit])).2 = true := by
  induction es with
  | nil => rfl
  | cons e rest ih =>
    cases e with
    | error err => simpa [runLoop] using ih
    | ok ev => cases ev <;> simp [runLoop, ih]

/-- `Key::from_current_layout_char` can never fail: the masked low byte
`scan & 0x00FF` lies in `0..=255`, so the source's `vkc != -1` test always
passes. -/
theorem from_current_layout_char_isSome (scanOf : Char → Int) (c : Char) :
    (Key.from_current_layout_char scanOf c).isSome = true := by
  have hnn : (0:Int) ≤ (scanOf c).emod 256 := Int.emod_nonneg _ (by norm_num)
  rw [show Key.from_current_layout_char scanOf c
      = (if (scanOf c).emod 256 ≠ -1 then some ⟨((scanOf c).emod 256).toNat⟩ else none)
      from rfl]
  rw [if_pos (by omega)]
  rfl

/-! ## Claims -/

/-- C1 counterexample: a raw message whose read succeeded (return value `1`)
with a message id that is neither `WM_HOTKEY` nor `WM_QUIT` (here `0`, i.e.
`WM_NULL`) is classified by `await_event` as `Quit`, not `Other` — refuting
the claim that any other message is classified as `Other` and never as
`Quit`. -/
theorem c1_await_event_counterexample :
    await_event 1 0 = Except.ok HotkeyEvent.Quit ∧
    await_event 1 0 ≠ Except.ok HotkeyEvent.Other := by
  exact ⟨rfl, by decide⟩

/-- C1 (amended): `await_event` classifies: return value `0` → `Quit`;
return value `-1` → `IoError`; otherwise `WM_HOTKEY` → `Hotkey`,
`WM_QUIT` → `Quit`, and any other message id → `Quit` (never `Other`). -/
theorem c1_await_event_classification (r : Int) (m : Nat)
    (h0 : r ≠ 0) (h1 : r ≠ -1) :
    (await_event 0 m = Except.ok HotkeyEvent.Quit) ∧
    (await_event (-1) m = Except.error ⟨⟩) ∧
    (await_event r WM_HOTKEY = Except.ok HotkeyEvent.Hotkey) ∧
    (await_event r WM_QUIT = Except.ok HotkeyEvent.Quit) ∧
    (m ≠ WM_HOTKEY → m ≠ WM_QUIT →
      await_event r m = Except.ok HotkeyEvent.Quit ∧
      await_event r m ≠ Except.ok HotkeyEvent.Other) := by
  refine ⟨by simp [await_event], by simp [await_event], ?_, ?_, ?_⟩
  · simp [await_event, h0, h1]
  · simp [await_event, h0, h1, WM_QUIT, WM_HOTKEY]
  · intro hm hq
    constructor
    · simp [await_event, h0, h1, hm, hq]
    · simp [await_event, h0, h1, hm, hq]

/-- C1 witness: the classification at the concrete read outcomes
(`r = 1`, message id `5`). -/
theorem c1_await_event_classification_witness :
    (await_event 0 5 = Except.ok HotkeyEvent.Quit) ∧
    (await_event (-1) 5 = Except.error ⟨⟩) ∧
    (await_event 1 WM_HOTKEY = Except.ok HotkeyEvent.Hotkey) ∧
    (await_event 1 WM_QUIT = Except.ok HotkeyEvent.Quit) ∧
    (await_event 1 5 = Except.ok HotkeyEvent.Quit ∧
      await_event 1 5 ≠ Except.ok HotkeyEvent.Other) := by
  have h := c1_await_event_classification 1 5 (by decide) (by decide)
  exact ⟨h.1, h.2.1, h.2.2.1, h.2.2.2.1, h.2.2.2.2 (by decide) (by decide)⟩

/-- C2: evaluating the code at the failing input. When the layout-lookup
primitive returns its failure sentinel `-1` (raw bits `0xFFFF`),
`from_current_layout_char` does NOT return `None`: the source masks first
(`vkc = scan & 0x00FF = 0xFF`) and only then compares with `-1`, so it
returns `Some(Key(255))`, and `Options::virtual_key` proceeds with
`Ok(Some(Key(255)))` instead of `Err(MappingFail)`. -/
theorem c2_mapping_failure_bug :
    Key.from_current_layout_char (fun _ => -1) 'A' = some ⟨255⟩ ∧
    Options.virtual_key ⟨false, false, none, some 'A', false, false, false, false⟩
      (fun _ => -1) = Except.ok (some ⟨255⟩) := by
  exact ⟨rfl, rfl⟩

/-- C10: whenever `from_current_layout_char` returns `Some(Key k)`, the code
`k` is exactly the low byte (bits 0-7) of the 16-bit lookup result — equal to
the Euclidean remainder mod 256 of the signed value, hence below 256, and
equal to the low byte of the unsigned 16-bit bit pattern, discarding the
shift-state bits 8-15. -/
theorem c10_key_is_low_byte (scanOf : Char → Int) (c : Char) (k : Key)
    (h : Key.from_current_layout_char scanOf c = some k) :
    k.code = ((scanOf c).emod 256).toNat ∧
    k.code < 256 ∧
    k.code = ((scanOf c).emod 65536).toNat % 256 := by
  rw [show Key.from_current_layout_char scanOf c
      = (if (scanOf c).emod 256 ≠ -1 then some ⟨((scanOf c).emod 256).toNat⟩ else none)
      from rfl] at h
  have hnn : (0:Int) ≤ (scanOf c).emod 256 := Int.emod_nonneg _ (by norm_num)
  have hlt : (scanOf c).emod 256 < 256 := Int.emod_lt_of_pos _ (by norm_num)
  rw [if_pos (by omega)] at h
  injection h with h
  subst h
  have h2 : ((scanOf c).emod 65536).emod 256 = (scanOf c).emod 256 :=
    Int.emod_emod_of_dvd _ (by norm_num)
  have hX : (0:Int) ≤ (scanOf c).emod 65536 := Int.emod_nonneg _ (by norm_num)
  refine ⟨rfl, ?_, ?_⟩
  · show ((scanOf c).emod 256).toNat < 256
    omega
  · show ((scanOf c).emod 256).toNat = ((scanOf c).emod 65536).toNat % 256
    rw [← h2]
    obtain ⟨n, hn⟩ := Int.eq_ofNat_of_zero_le hX
    rw [hn]
    norm_cast

/-- C10 witness: at the concrete lookup result `65` for `'A'`, the key code is
the low byte `65`. -/
theorem c10_key_is_low_byte_witness :
    (Key.from_current_layout_char (fun _ => 65) 'A' = some ⟨65⟩) ∧
    ((⟨65⟩ : Key).code = ((65:Int).emod 256).toNat ∧
     (⟨65⟩ : Key).code < 256 ∧
     (⟨65⟩ : Key).code = ((65:Int).emod 65536).toNat % 256) :=
  ⟨by decide, c10_key_is_low_byte (fun _ => 65) 'A' ⟨65⟩ (by decide)⟩

/-- C3 counterexample: with restore-on-exit configured and pre-run flag value
`1` (native lock disabled), a graceful `Quit` run ends with the flag at `0`
(enabled) — the restore writes the Windows default, not the pre-run value, so
the final value does not equal the pre-run value. -/
theorem c3_restore_counterexample :
    mainRun ⟨false, true, some 65, none, false, false, false, false⟩ (fun _ => 0) true
      [Except.ok HotkeyEvent.Quit] = some ([Act.policyWrite true], 0) ∧
    finalFlag 1 [Act.policyWrite true] = 0 ∧
    finalFlag 1 [Act.policyWrite true] ≠ 1 := by
  exact ⟨rfl, rfl, by decide⟩

/-- C3 (amended): when restore-on-exit is configured, the final observed value
of the persisted flag is `0` ("native lock enabled" — the Windows default) on
every termination path: graceful `Quit`, registration failure, no-hotkey run,
and the external-interrupt handler; in particular it equals the pre-run value
exactly when that value was `0`. The paths through `mainRun` exclude only the
configuration-error path (where the process exits before the loop ever
starts and line 169 is not reached). -/
theorem c3_restore_final_enabled (o : Options) (scanOf : Char → Int) (regOk : Bool)
    (events : List (Except IoErr HotkeyEvent)) (init : Nat)
    (hr : o.restore_windows = true) :
    finalFlag init (mainRunInterrupted o events).1 = 0 ∧
    (∀ acts code, (∀ e, o.virtual_key scanOf ≠ .error e) →
      mainRun o scanOf regOk events = some (acts, code) → finalFlag init acts = 0) := by
  constructor
  · show finalFlag init (preActions o ++ (runLoop o events).1 ++ o.cleanup) = 0
    rw [Options.cleanup, hr, if_pos rfl]
    exact finalFlag_append_enable _ _
  · intro acts code hne hmain
    unfold mainRun at hmain
    cases hv : o.virtual_key scanOf with
    | error e => exact absurd hv (hne e)
    | ok vk =>
      rw [hv] at hmain
      cases vk with
      | none =>
        rw [hr, if_pos rfl] at hmain
        injection hmain with hmain
        obtain ⟨rfl, rfl⟩ := Prod.mk.injEq .. ▸ And.intro (congrArg Prod.fst hmain) (congrArg Prod.snd hmain)
        exact finalFlag_append_enable _ _
      | some k =>
        cases regOk with
        | false =>
          simp only [Bool.false_eq_true, if_neg] at hmain
          injection hmain with hmain
          have h1 : acts = preActions o ++ o.cleanup := (congrArg Prod.fst hmain).symm
          rw [h1, Options.cleanup, hr, if_pos rfl]
          exact finalFlag_append_enable _ _
        | true =>
          simp only [if_pos] at hmain
          cases hq : (runLoop o events).2 with
          | false => rw [hq] at hmain; simp at hmain
          | true =>
            rw [hq] at hmain
            simp only [if_pos] at hmain
            injection hmain with hmain
            have h1 : acts = preActions o ++ (runLoop o events).1 ++
                (if o.restore_windows then [Act.policyWrite true] else []) :=
              (congrArg Prod.fst hmain).symm
            rw [h1, hr, if_pos rfl]
            exact finalFlag_append_enable _ _

/-- C3 witness: the amended statement at a concrete run (restore configured,
pre-run flag `7`, key code 65, one `Quit` event). -/
theorem c3_restore_final_enabled_witness :
    finalFlag 7 (mainRunInterrupted ⟨false, true, some 65, none, false, false, false, false⟩
      [Except.ok HotkeyEvent.Quit]).1 = 0 ∧
    finalFlag 7 [Act.policyWrite true] = 0 := by
  have h := c3_restore_final_enabled ⟨false, true, some 65, none, false, false, false, false⟩
    (fun _ => 0) true [Except.ok HotkeyEvent.Quit] 7 rfl
  exact ⟨h.1, h.2 [Act.policyWrite true] 0 (fun e => by cases e <;> decide) rfl⟩

/-- C4: on a `Hotkey` event, the loop first re-enables the lock policy
(unconditionally), then invokes the lock action, and then — only when
`disable_windows` is configured — sleeps the fixed 500 ms grace interval and
re-disables; when `disable_windows` is not configured no re-disable write
occurs during the reaction. -/
theorem c4_hotkey_reaction_order (o : Options) (rest : List (Except IoErr HotkeyEvent)) :
    runLoop o (Except.ok HotkeyEvent.Hotkey :: rest)
      = (([Act.policyWrite true, Act.lock] ++
          (if o.disable_windows then [Act.sleep 500, Act.policyWrite false] else []))
          ++ (runLoop o rest).1, (runLoop o rest).2) ∧
    (o.disable_windows = false → Act.policyWrite false ∉ hotkeyActions o) := by
  constructor
  · rfl
  · intro h
    simp [hotkeyActions, h]

/-- C4 witness: the reaction at a concrete configuration with
`disable_windows` off and an empty remainder of the stream. -/
theorem c4_hotkey_reaction_order_witness :
    runLoop ⟨false, false, some 65, none, false, false, false, false⟩
        (Except.ok HotkeyEvent.Hotkey :: ([] : List (Except IoErr HotkeyEvent)))
      = (([Act.policyWrite true, Act.lock] ++
          (if (false : Bool) then [Act.sleep 500, Act.policyWrite false] else []))
          ++ (runLoop ⟨false, false, some 65, none, false, false, false, false⟩ []).1,
         (runLoop ⟨false, false, some 65, none, false, false, false, false⟩ []).2) ∧
    Act.policyWrite false ∉ hotkeyActions ⟨false, false, some 65, none, false, false, false, false⟩ := by
  have h := c4_hotkey_reaction_order ⟨false, false, some 65, none, false, false, false, false⟩ []
  exact ⟨h.1, h.2 rfl⟩

/-- C5: the event sequence `[Other, Other, Hotkey, Other, Quit]` yields exactly
one lock action, the loop terminates upon consuming `Quit`, any events after
`Quit` never change the outcome, and an `Other` event is consumed with no
actions. -/
theorem c5_scenario (o : Options) (extra : List (Except IoErr HotkeyEvent)) :
    (runLoop o [Except.ok HotkeyEvent.Other, Except.ok HotkeyEvent.Other,
      Except.ok HotkeyEvent.Hotkey, Except.ok HotkeyEvent.Other,
      Except.ok HotkeyEvent.Quit]).1.count Act.lock = 1 ∧
    (runLoop o [Except.ok HotkeyEvent.Other, Except.ok HotkeyEvent.Other,
      Except.ok HotkeyEvent.Hotkey, Except.ok HotkeyEvent.Other,
      Except.ok HotkeyEvent.Quit]).2 = true ∧
    runLoop o ([Except.ok HotkeyEvent.Other, Except.ok HotkeyEvent.Other,
      Except.ok HotkeyEvent.Hotkey, Except.ok HotkeyEvent.Other,
      Except.ok HotkeyEvent.Quit] ++ extra)
      = runLoop o [Except.ok HotkeyEvent.Other, Except.ok HotkeyEvent.Other,
      Except.ok HotkeyEvent.Hotkey, Except.ok HotkeyEvent.Other,
      Except.ok HotkeyEvent.Quit] ∧
    runLoop o (Except.ok HotkeyEvent.Other :: extra) = runLoop o extra := by
  refine ⟨?_, rfl, rfl, rfl⟩
  show (hotkeyActions o ++ ([] : List Act)).count Act.lock = 1
  cases h : o.disable_windows <;> simp [hotkeyActions, h, List.count_cons]

/-- C7: an `IoError` from the event read adds no action and the loop simply
retries: the run on `error :: rest` equals the run on `rest` (so no lock
action and no policy write happen in that iteration and the loop re-enters
listening), and a stream of only read errors never terminates the loop. -/
theorem c7_ioerror_nonfatal (o : Options) (e : IoErr)
    (rest : List (Except IoErr HotkeyEvent)) (n : Nat) :
    runLoop o (Except.error e :: rest) = runLoop o rest ∧
    runLoop o (List.replicate n (Except.error e)) = ([], false) := by
  refine ⟨rfl, ?_⟩
  induction n with
  | zero => rfl
  | succ m ih => simpa [List.replicate_succ, runLoop] using ih

/-- C6: for every combination of the four modifier booleans, the constructed
modifier set is the bitwise union of the corresponding bits
(Control=0x0002, Shift=0x0004, Win=0x0008, Alt=0x0001) with the always-present
NoRepeat bit (0x4000), and the union is order-independent: the same value is
obtained with the operands united in the reverse order. -/
theorem c6_modifiers_union (o : Options) :
    Modifiers.fromOptions o =
      ((if o.ctrl then Modifiers.Control else 0) |||
       (if o.shift then Modifiers.Shift else 0) |||
       (if o.windows then Modifiers.Win else 0) |||
       (if o.alt then Modifiers.Alt else 0) ||| Modifiers.NoRepeat) ∧
    Modifiers.fromOptions o =
      (Modifiers.NoRepeat ||| (if o.alt then Modifiers.Alt else 0) |||
       (if o.windows then Modifiers.Win else 0) |||
       (if o.shift then Modifiers.Shift else 0) |||
       (if o.ctrl then Modifiers.Control else 0)) ∧
    Modifiers.Alt = 0x0001 ∧ Modifiers.Control = 0x0002 ∧ Modifiers.Shift = 0x0004 ∧
    Modifiers.Win = 0x0008 ∧ Modifiers.NoRepeat = 0x4000 := by
  obtain ⟨dw, r, vc, k, c, s, w, a⟩ := o
  cases c <;> cases s <;> cases w <;> cases a <;>
    refine ⟨?_, ?_, rfl, rfl, rfl, rfl, rfl⟩ <;>
    simp [Modifiers.fromOptions, Modifiers.NoRepeat, Modifiers.Control,
      Modifiers.Shift, Modifiers.Win, Modifiers.Alt]

/-- A successfully-registered run whose event stream drives the loop to a
`Quit` terminates with exit code 0 after the line-169 conditional restore. -/
theorem mainRun_quit (o : Options) (scanOf : Char → Int)
    (events : List (Except IoErr HotkeyEvent)) (k : Key)
    (hk : o.virtual_key scanOf = .ok (some k))
    (hq : (runLoop o events).2 = true) :
    mainRun o scanOf true events
      = some (preActions o ++ (runLoop o events).1 ++
          (if o.restore_windows then [Act.policyWrite true] else []), 0) := by
  unfold mainRun
  rw [hk]
  simp [hq]

/-- C8: exit codes. A run with no hotkey configured exits 0; giving both an
explicit key code and a character always resolves to the `Conflict` error —
never silently preferring one — and exits 1; a hotkey registration failure
exits 1 after cleanup; and a graceful run whose event stream ends in `Quit`
exits 0. -/
theorem c8_exit_codes (o : Options) (scanOf : Char → Int) (regOk : Bool)
    (events : List (Except IoErr HotkeyEvent)) (code : Nat) (c : Char) :
    mainRun { o with virtual_code := none, key := none } scanOf regOk events
      = some (preActions o ++ (if o.restore_windows then [Act.policyWrite true] else []), 0) ∧
    Options.virtual_key { o with virtual_code := some code, key := some c } scanOf
      = Except.error OptionsKeyError.Conflict ∧
    mainRun { o with virtual_code := some code, key := some c } scanOf regOk events
      = some (preActions o, 1) ∧
    mainRun { o with virtual_code := some code, key := none } scanOf false events
      = some (preActions o ++ Options.cleanup o, 1) ∧
    mainRun { o with virtual_code := some code, key := none } scanOf true
        (events ++ [Except.ok HotkeyEvent.Quit])
      = some (preActions o ++
          (runLoop { o with virtual_code := some code, key := none }
            (events ++ [Except.ok HotkeyEvent.Quit])).1 ++
          (if o.restore_windows then [Act.policyWrite true] else []), 0) := by
  refine ⟨rfl, rfl, rfl, rfl, ?_⟩
  exact mainRun_quit _ scanOf _ ⟨code⟩ rfl (runLoop_append_quit _ _)

/-- C9: for every boolean argument, `set_lock_enabled` issues exactly one
registry write: `HKEY_CURRENT_USER`,
subkey `Software\Microsoft\Windows\CurrentVersion\Policies\System`, value name
`DisableLockWorkstation`, type `REG_DWORD`, 4 bytes, with the inverted
encoding `0` for enabled and `1` for disabled; it writes nothing else and its
behaviour takes no prior registry state into account. -/
theorem c9_set_lock_enabled_write (b : Bool) :
    set_lock_enabled b =
      [{ hive := 0x80000001,
         subkey := "Software\\Microsoft\\Windows\\CurrentVersion\\Policies\\System",
         valueName := "DisableLockWorkstation",
         valueType := 4,
         data := if b then 0 else 1,
         dataSize := 4 }] ∧
    (set_lock_enabled b).length = 1 ∧
    (set_lock_enabled true).map RegWrite.data = [0] ∧
    (set_lock_enabled false).map RegWrite.data = [1] := by
  cases b <;> exact ⟨rfl, rfl, rfl, rfl⟩
